import Mathlib

/-!
Verification of the FlousWise AI service core (RAG pipeline) against its
natural-language specification.

The Python sources are shallowly embedded as Lean definitions:

* `scripts/ingest_books.py` : `chunk_text` (the Chunker), including Python
  list-slice semantics and the `while` loop modelled with explicit fuel
  (`none` = the loop did not finish within the given fuel).
* `app/services/embedding_service.py` : `generate_embedding`,
  `generate_embeddings`, `compute_similarity`.
* `app/services/rag_service.py` : `RAGService.query` (orchestration and
  degradation policy) and `RAGService._construct_prompt`.
* `app/api/chat_routes.py` : the `chat` endpoint handler.

External collaborators (the sentence-transformer model, ChromaDB, the
finance service, MongoDB, the LLM) are passed in as explicit function or
result parameters, mirroring the spec treatment of them as black boxes.
Numbers that Python holds as `int`/`float` are modelled as `Int`/`Rat`
(`Real` for `compute_similarity`, whose cosine value involves square
roots).
-/

namespace FlousWise

/-- Helper for `pySplit`: splits a character list on runs of whitespace,
accumulating the current word in reverse; empty pieces are never produced,
exactly as with Python `str.split()` without arguments. -/
def wsSplitAux : List Char → List Char → List (List Char)
  | [], acc => if acc = [] then [] else [acc.reverse]
  | c :: rest, acc =>
    if c.isWhitespace then
      if acc = [] then wsSplitAux rest [] else acc.reverse :: wsSplitAux rest []
    else
      wsSplitAux rest (c :: acc)

/-- Python `text.split()` (no separator argument): split on runs of
whitespace, discarding empty pieces. Used by `chunk_text` in
`scripts/ingest_books.py`. -/
def pySplit (text : String) : List String :=
  (wsSplitAux text.toList []).map (fun cs => String.mk cs)

/-- Python list slice `l[a:b]` for `Int` indices: negative indices count
from the end, and both bounds are clamped to `[0, len(l)]`. -/
def pySlice {α : Type} (l : List α) (a b : Int) : List α :=
  let n : Int := l.length
  let a' : Int := if a < 0 then max (n + a) 0 else min a n
  let b' : Int := if b < 0 then max (n + b) 0 else min b n
  (l.take b'.toNat).drop a'.toNat

/-- The `while start < len(words)` loop of `chunk_text`
(`scripts/ingest_books.py`, lines 62-78), with explicit fuel counting loop
iterations; `none` means the loop was still running when the fuel ran out
(in particular, `none` for every fuel means the loop never terminates).
Each iteration takes the slice `words[start:start+chunk_size]`, appends it,
advances `start` by `chunk_size - overlap`, and breaks once
`end >= len(words)`. The produced value is the list of word windows; the
source joins each window with single spaces (see `chunk_text`). -/
def chunkLoop (words : List String) (chunk_size overlap : Int)
    (start : Int) (fuel : Nat) : Option (List (List String)) :=
  if start < (words.length : Int) then
    match fuel with
    | 0 => none
    | fuel' + 1 =>
      let stop := start + chunk_size
      let w := pySlice words start stop
      if stop ≥ (words.length : Int) then
        some [w]
      else
        match chunkLoop words chunk_size overlap (start + (chunk_size - overlap)) fuel' with
        | none => none
        | some ws => some (w :: ws)
  else
    some []

/-- `chunk_text(text, chunk_size, overlap)` from `scripts/ingest_books.py`:
split into words, return `[]` for empty input, otherwise run the chunking
loop and join each window with single spaces. Fuel `len(words) + 1` covers
every terminating run (the loop performs at most `len(words)` iterations
whenever it terminates at all, since `start` starts at `0`, only moves by
`chunk_size - overlap` per iteration, and the loop is over once
`start ≥ len(words)`). -/
def chunk_text (text : String) (chunk_size overlap : Int) : Option (List String) :=
  let words := pySplit text
  if words.length = 0 then
    some []
  else
    (chunkLoop words chunk_size overlap 0 (words.length + 1)).map
      (fun ws => ws.map (fun w => String.intercalate " " w))

/-! ## Embedding service (`app/services/embedding_service.py`)

The sentence-transformer model is the black box `encode : String → List Rat`
(spec treats the model as an opaque deterministic function; `model.encode`
on a list is the per-item application of that function, which the spec
postulates as semantics-preserving batching). -/

/-- Python `s.strip()`: remove leading and trailing whitespace. -/
def pyStrip (s : String) : String :=
  String.mk (((s.toList.dropWhile Char.isWhitespace).reverse.dropWhile
    Char.isWhitespace).reverse)

/-- Truthiness test `text and text.strip()` used by the embedding service
to reject empty or whitespace-only input. -/
def isValidText (text : String) : Bool :=
  text != "" && pyStrip text != ""

/-- `EmbeddingService.generate_embedding` (lines 90-144): raises
`EmbeddingException` (modelled as `Except.error` with the source message)
on empty or whitespace-only input, otherwise encodes the text. -/
def generate_embedding (encode : String → List Rat) (text : String) :
    Except String (List Rat) :=
  if isValidText text then
    Except.ok (encode text)
  else
    Except.error "Cannot generate embedding for empty text"

/-- `EmbeddingService.generate_embeddings` (lines 146-224): returns `[]`
for an empty input list, filters out empty or whitespace-only strings,
raises (`Except.error`) when nothing survives the filter, and otherwise
encodes the surviving texts in order. -/
def generate_embeddings (encode : String → List Rat) (texts : List String) :
    Except String (List (List Rat)) :=
  if texts.isEmpty then
    Except.ok []
  else
    let valid_texts := texts.filter (fun t => isValidText t)
    if valid_texts.isEmpty then
      Except.error "No valid texts to generate embeddings for"
    else
      Except.ok (valid_texts.map encode)

/-- A sample deterministic encoder used to instantiate the black-box
model on concrete inputs: it encodes a string as the one-element vector
holding its length. -/
def exEncode (s : String) : List Rat := [(s.length : Rat)]

/-- `np.dot(vec1, vec2)` for equal-length 1-d vectors, modelled over the
reals. -/
def dotList (v1 v2 : List Real) : Real :=
  (List.zipWith (fun x y => x * y) v1 v2).sum

/-- `np.linalg.norm(vec)`: the Euclidean norm, square root of the sum of
squares. -/
noncomputable def normList (v : List Real) : Real :=
  Real.sqrt ((v.map (fun x => x * x)).sum)

/-- `EmbeddingService.compute_similarity` (lines 261-278): cosine
similarity with the division-by-zero guard `if norm1 == 0 or norm2 == 0:
return 0.0`. Floats are modelled as reals. -/
noncomputable def compute_similarity (v1 v2 : List Real) : Real :=
  have : Decidable (normList v1 = 0 ∨ normList v2 = 0) := Classical.propDecidable _
  if normList v1 = 0 ∨ normList v2 = 0 then 0
  else dotList v1 v2 / (normList v1 * normList v2)

/-! ## Prompt construction (`app/services/rag_service.py`, `_construct_prompt`)

The dynamically-typed profile dictionary is modelled as a structure of
optional fields; each `dict.get(key, default)` becomes `Option.getD`.
Numbers (Python ints/floats inside the profile) are modelled as `Rat`. -/

/-- The `monthlyIncome` sub-dictionary: keys `salary`, `freelance`,
`other`, each optional (absent keys default to `0` via `.get`). -/
structure MonthlyIncome where
  salary : Option Rat
  freelance : Option Rat
  other : Option Rat
deriving DecidableEq

/-- A debt entry; `_construct_prompt` reads `debt.get("remainingAmount", 0)`. -/
structure Debt where
  remainingAmount : Option Rat
deriving DecidableEq

/-- A financial goal; `_construct_prompt` reads `goal.get("name", "")`. -/
structure Goal where
  name : Option String
deriving DecidableEq

/-- ChromaDB chunk metadata; `_construct_prompt` reads
`metadata.get("title", "Unknown")`. -/
structure Metadata where
  title : Option String
deriving DecidableEq

/-- The user profile dictionary as read by `_construct_prompt`. The
placeholder substituted on fetch failure has only `userId` and `error`
set. -/
structure UserProfile where
  userId : Option String
  error : Option String
  monthlyIncome : Option MonthlyIncome
  fixedExpenses : Option (List (String × Rat))
  variableExpenses : Option (List (String × Rat))
  debts : Option (List Debt)
  financialGoals : Option (List Goal)
deriving DecidableEq

/-- The minimal profile `{"userId": user_id, "error": "Profile not
available"}` substituted by `RAGService.query` when the profile fetch
raises (lines 153-156). -/
def placeholderProfile (user_id : String) : UserProfile :=
  { userId := some user_id
    error := some "Profile not available"
    monthlyIncome := none
    fixedExpenses := none
    variableExpenses := none
    debts := none
    financialGoals := none }

/-- Rendering abstraction for the Python format spec `:,.0f` (thousands
separators, zero decimals). Digit rendering is deterministic and
orthogonal to every claim, so it is abstracted by `toString`. -/
def fmtThousands (q : Rat) : String := toString q

/-- Rendering abstraction for the Python format spec `:.1f` (one decimal
place), abstracted by `toString` as for `fmtThousands`. -/
def fmtOneDecimal (q : Rat) : String := toString q

/-- The savings-rate expression rendered inside `_construct_prompt`
(line 269): `((total_income - total_expenses) / total_income * 100) if
total_income > 0 else 0`. -/
def savings_rate_pct (total_income total_expenses : Rat) : Rat :=
  if 0 < total_income then (total_income - total_expenses) / total_income * 100
  else 0

/-- The marker rendered in place of the retrieved-passage block when no
book chunks are available (line 259). -/
def noExcerptsMarker : String :=
  "(No relevant book excerpts found for this question)"

/-- The book-excerpt block built by the `for i, (chunk, metadata) in
enumerate(zip(book_chunks, metadatas), 1)` loop (lines 255-257). -/
def excerptsFrom : Nat → List (String × Metadata) → String
  | _, [] => ""
  | i, (chunk, metadata) :: rest =>
    "Book Excerpt " ++ toString i ++ " (from \x27" ++
      (metadata.title.getD "Unknown") ++ "\x27):\n" ++ chunk ++ "\n\n" ++
      excerptsFrom (i + 1) rest

/-- The `book_knowledge` string of `_construct_prompt` (lines 252-259):
the labelled excerpt block when chunks were retrieved, otherwise the
explicit no-excerpts marker. -/
def bookKnowledge (book_chunks : List String) (metadatas : List Metadata) : String :=
  if book_chunks ≠ [] then
    "FINANCIAL WISDOM FROM BOOKS:\n\n" ++ excerptsFrom 1 (book_chunks.zip metadatas)
  else
    "FINANCIAL WISDOM FROM BOOKS:\n" ++ noExcerptsMarker ++ "\n\n"

/-- `RAGService._construct_prompt` (lines 214-289): a pure function of the
question, the profile, the retrieved chunks with their metadata, and the
formatted regional context. The f-string template is modelled by string
concatenation in exactly the source order. -/
def constructPrompt (user_question : String) (user_profile : UserProfile)
    (book_chunks : List String) (metadatas : List Metadata)
    (moroccan_context : String) : String :=
  let income := user_profile.monthlyIncome.getD ⟨none, none, none⟩
  let fixed_expenses := user_profile.fixedExpenses.getD []
  let variable_expenses := user_profile.variableExpenses.getD []
  let debts := user_profile.debts.getD []
  let goals := user_profile.financialGoals.getD []
  let total_income := income.salary.getD 0 + income.freelance.getD 0 + income.other.getD 0
  let total_fixed := (fixed_expenses.map Prod.snd).sum
  let total_variable := (variable_expenses.map Prod.snd).sum
  let total_expenses := total_fixed + total_variable
  let total_debt := if debts = [] then 0 else
    (debts.map (fun d => d.remainingAmount.getD 0)).sum
  let book_knowledge := bookKnowledge book_chunks metadatas
  let goalsLine := if goals ≠ [] then
    "  Goals: " ++ String.intercalate ", " ((goals.take 3).map (fun g => g.name.getD ""))
  else ""
  "You are answering a financial question for a Moroccan user.\n\nUSER FINANCIAL PROFILE:\n- Monthly Income: " ++
    fmtThousands total_income ++ " MAD\n  (Salary: " ++
    fmtThousands (income.salary.getD 0) ++ " MAD, Freelance: " ++
    fmtThousands (income.freelance.getD 0) ++ " MAD, Other: " ++
    fmtThousands (income.other.getD 0) ++ " MAD)\n- Monthly Expenses: " ++
    fmtThousands total_expenses ++ " MAD\n  (Fixed: " ++
    fmtThousands total_fixed ++ " MAD, Variable: " ++
    fmtThousands total_variable ++ " MAD)\n- Savings Rate: " ++
    fmtOneDecimal (savings_rate_pct total_income total_expenses) ++ "%\n- Total Debt: " ++
    fmtThousands total_debt ++ " MAD\n- Financial Goals: " ++
    toString goals.length ++ " active goals\n" ++
    goalsLine ++ "\n\n" ++
    moroccan_context ++ "\n\n" ++
    book_knowledge ++ "\n\nUSER QUESTION:\n" ++
    user_question ++
    "\n\nProvide personalized financial advice based on:\n1. The user\x27s specific financial situation (income, expenses, goals)\n2. Moroccan economic reality (salaries, programs, opportunities)\n3. Financial wisdom from the books above\n4. Practical action steps\n\nBe specific, reference numbers, and give actionable advice."

/-- `RAGService._get_system_message` (lines 188-212): a fixed constant. -/
def get_system_message : String :=
  "You are an expert financial advisor specializing in helping Moroccans manage their finances.\n\nYour role:\n- Provide practical, actionable financial advice\n- Reference the user\x27s specific financial situation (income, expenses, goals)\n- Consider Moroccan economic reality (salaries, cost of living, programs)\n- Cite relevant book wisdom when applicable\n- Be empathetic but realistic\n\nGuidelines:\n1. Always personalize advice based on user\x27s profile\n2. Reference specific numbers from their financial data\n3. Suggest local resources (government programs, opportunities)\n4. Keep responses concise but comprehensive (3-5 paragraphs)\n5. Use clear, simple language (avoid jargon)\n6. End with 2-3 concrete action steps\n\nRemember: You\x27re helping real people with real financial challenges in Morocco."

/-! ## Pipeline orchestration (`app/services/rag_service.py`, `query`)

Each collaborator call is passed in as its outcome (`Except`), mirroring
the suspension points of the async pipeline; the LLM is a function of the
prompt and the system message. -/

/-- Outcomes of `ProfileService.get_user_profile`
(`app/services/profile_service.py`, lines 49-121): `ProfileNotFoundException`
on HTTP 404, `ProfileFetchException` on any other failure. -/
inductive ProfileError where
  | notFound (user_id : String)
  | fetchError (reason : String)
deriving DecidableEq

/-- Errors surfaced by `RAGService.query` to its caller. The
`profileNotFound` alternative exists because the route layer
(`chat_routes.py`, line 90) has a dedicated handler for
`ProfileNotFoundException` escaping `query`; `ragException` models
`RAGException`. -/
inductive RagError where
  | profileNotFound (user_id : String)
  | ragException (msg : String)
deriving DecidableEq

/-- `RAGService.query` (lines 88-186). Control flow, exactly as in the
source: an embedding failure escapes to the outer `except Exception` and
becomes `RAGException`; a ChromaDB failure is caught and replaced by empty
chunk and metadata lists (lines 139-143); ANY profile-fetch failure is
caught by `except Exception` (lines 153-156) and replaced by the
placeholder profile — including `ProfileNotFoundException`; the prompt is
then built and handed to the LLM, whose failure again becomes
`RAGException`. -/
def ragQuery (embedRes : Except String (List Rat))
    (retrieveRes : Except String (List String × List Metadata))
    (profileRes : Except ProfileError UserProfile)
    (moroccan_context : String)
    (llm : String → String → Except String String)
    (user_id user_question : String) : Except RagError String :=
  match embedRes with
  | Except.error e => Except.error (RagError.ragException ("Failed to generate response: " ++ e))
  | Except.ok _ =>
    let retrieved : List String × List Metadata :=
      match retrieveRes with
      | Except.ok r => r
      | Except.error _ => ([], [])
    let user_profile : UserProfile :=
      match profileRes with
      | Except.ok p => p
      | Except.error _ => placeholderProfile user_id
    let prompt := constructPrompt user_question user_profile retrieved.1 retrieved.2
      moroccan_context
    match llm prompt get_system_message with
    | Except.ok response => Except.ok response
    | Except.error e => Except.error (RagError.ragException ("Failed to generate response: " ++ e))

/-! ## Chat endpoint (`app/api/chat_routes.py`, `chat`) -/

/-- The response body of the chat endpoint. -/
structure ChatResponse where
  answer : String
  conversationId : String
deriving DecidableEq

/-- Outcome of the chat endpoint: a response, or an `HTTPException` with a
status code and detail string. -/
inductive ChatOutcome where
  | response (r : ChatResponse)
  | httpError (status : Nat) (detail : String)
deriving DecidableEq

/-- The canned answer returned when `ProfileNotFoundException` escapes the
RAG pipeline (`chat_routes.py`, lines 90-98). -/
def onboardingAnswer : String :=
  "I notice you haven\x27t set up your financial profile yet. To provide personalized advice, please complete your profile with your income, expenses, and financial goals. Once your profile is set up, I\x27ll be able to give you specific recommendations based on your situation."

/-- The `chat` endpoint handler (`chat_routes.py`, lines 61-131), as a
function of the outcomes of its three effectful sub-steps. Both
`save_message` calls sit inside the outer `try:` whose `except Exception`
maps any failure to HTTP 500 "An unexpected error occurred..."; the RAG
call has its own handlers for `ProfileNotFoundException` and
`RAGException` (the latter becomes HTTP 500 "Failed to generate
response...", re-raised through `except HTTPException: raise`). -/
def chatEndpoint (saveUserMsg : Except String String)
    (ragRes : Except RagError String)
    (saveAssistantMsg : Except String String)
    (conversation_id : String) : ChatOutcome :=
  match saveUserMsg with
  | Except.error _ => ChatOutcome.httpError 500 "An unexpected error occurred. Please try again."
  | Except.ok _ =>
    let answerRes : Except ChatOutcome String :=
      match ragRes with
      | Except.ok a => Except.ok a
      | Except.error (RagError.profileNotFound _) => Except.ok onboardingAnswer
      | Except.error (RagError.ragException _) =>
        Except.error (ChatOutcome.httpError 500 "Failed to generate response. Please try again.")
    match answerRes with
    | Except.error e => e
    | Except.ok answer =>
      match saveAssistantMsg with
      | Except.error _ => ChatOutcome.httpError 500 "An unexpected error occurred. Please try again."
      | Except.ok _ => ChatOutcome.response { answer := answer, conversationId := conversation_id }

/-! ## Sanity checks on concrete inputs -/

example : pySplit "a  b c" = ["a", "b", "c"] := by decide
example : chunk_text "a b c d" 2 1 = some ["a b", "b c", "c d"] := by decide
example : chunk_text "" 2 1 = some [] := by decide
example : chunk_text "a b" 5 7 = some ["a b"] := by decide
example : chunkLoop ["a", "b", "c"] 1 1 0 5 = none := by decide
example : isValidText "  " = false := by decide
example : isValidText " x " = true := by decide
example : generate_embeddings (fun s => [(s.length : Rat)]) [" ", "ab"] =
    Except.ok [[("ab".length : Rat)]] := rfl

/-! ## Chunker lemmas -/

/-- Unfolding: once `start` has reached the length of `words`, the loop
exits with the accumulated chunks. -/
lemma chunkLoop_exit (words : List String) (cs ov start : Int) (fuel : Nat)
    (h : ¬ start < (words.length : Int)) :
    chunkLoop words cs ov start fuel = some [] := by
  rw [chunkLoop.eq_def, if_neg h]

/-- Unfolding: with the loop still running and no fuel left, the model
reports non-termination within the given fuel. -/
lemma chunkLoop_fuel_zero (words : List String) (cs ov start : Int)
    (h : start < (words.length : Int)) :
    chunkLoop words cs ov start 0 = none := by
  rw [chunkLoop.eq_def, if_pos h]

/-- Unfolding of one loop iteration with fuel remaining. -/
lemma chunkLoop_iter (words : List String) (cs ov start : Int) (fuel : Nat)
    (h : start < (words.length : Int)) :
    chunkLoop words cs ov start (fuel + 1) =
      (if start + cs ≥ (words.length : Int) then
        some [pySlice words start (start + cs)]
      else
        match chunkLoop words cs ov (start + (cs - ov)) fuel with
        | none => none
        | some ws => some (pySlice words start (start + cs) :: ws)) := by
  rw [chunkLoop.eq_def, if_pos h]

/-- Fuel sufficiency: whenever `overlap < chunk_size`, the loop finishes
within `len(words) - start` iterations, because each iteration advances
`start` by `chunk_size - overlap ≥ 1`. -/
lemma chunkLoop_isSome (words : List String) (cs ov : Int) (hlt : ov < cs) :
    ∀ (fuel : Nat) (start : Int), (words.length : Int) ≤ start + fuel →
      (chunkLoop words cs ov start fuel).isSome := by
  intro fuel
  induction fuel with
  | zero =>
    intro start hle
    rw [chunkLoop_exit words cs ov start 0 (by push_cast at hle ⊢; omega)]
    rfl
  | succ n ih =>
    intro start hle
    by_cases h1 : start < (words.length : Int)
    · rw [chunkLoop_iter words cs ov start n h1]
      by_cases h2 : start + cs ≥ (words.length : Int)
      · rw [if_pos h2]; rfl
      · rw [if_neg h2]
        have hrec := ih (start + (cs - ov)) (by push_cast at hle ⊢; omega)
        cases hx : chunkLoop words cs ov (start + (cs - ov)) n with
        | none => rw [hx] at hrec; simp at hrec
        | some ws => simp [hx]
    · rw [chunkLoop_exit words cs ov start _ h1]; rfl

/-- C9: For every input text and every (chunkSize, overlap) with
0 ≤ overlap < chunkSize (hence chunkSize ≥ 1), the chunking loop of
`chunk_text` terminates: the window start strictly increases by
`chunkSize − overlap ≥ 1` per iteration until the loop exits, so fuel
`len(words) + 1` always suffices and `chunk_text` returns a value. -/
theorem chunk_text_terminates (text : String) (cs ov : Int)
    (h0 : 0 ≤ ov) (h1 : ov < cs) : (chunk_text text cs ov).isSome := by
  unfold chunk_text
  by_cases hw : (pySplit text).length = 0
  · simp [hw]
  · rw [if_neg hw]
    have h := chunkLoop_isSome (pySplit text) cs ov h1 ((pySplit text).length + 1) 0
      (by push_cast; omega)
    cases hx : chunkLoop (pySplit text) cs ov 0 ((pySplit text).length + 1) with
    | none => rw [hx] at h; simp at h
    | some ws => simp [hx]

/-- Witness for C9 at text "a b c", chunkSize 2, overlap 1. -/
theorem chunk_text_terminates_witness :
    (0 : Int) ≤ 1 ∧ (1 : Int) < 2 ∧ (chunk_text "a b c" 2 1).isSome :=
  ⟨by decide, by decide, chunk_text_terminates "a b c" 2 1 (by decide) (by decide)⟩

/-- C3: `chunk_text` performs NO validation of its parameters and never
raises a `ConfigError` (no such error exists in the code). With
`overlap = 7 ≥ chunkSize = 5` on the two-word text "a b" it simply
returns output, and with `overlap = chunkSize = 1` on the three-word text
"a b c" its loop never terminates (`start` stays at `0` for every fuel
bound), contradicting the claim that every invalid pair fails with
`ConfigError`. -/
theorem chunk_text_no_validation :
    chunk_text "a b" 5 7 = some ["a b"]
    ∧ ∀ fuel : Nat, chunkLoop (pySplit "a b c") 1 1 0 fuel = none := by
  refine ⟨by decide, ?_⟩
  have hW : pySplit "a b c" = ["a", "b", "c"] := by decide
  rw [hW]
  intro fuel
  induction fuel with
  | zero => exact chunkLoop_fuel_zero ["a", "b", "c"] 1 1 0 (by decide)
  | succ n ih =>
    rw [chunkLoop_iter ["a", "b", "c"] 1 1 0 n (by decide)]
    rw [if_neg (by decide)]
    have h01 : (0 : Int) + (1 - 1) = 0 := by decide
    rw [h01, ih]

/-- Taking `min m (length l)` elements is the same as taking `m`. -/
lemma take_min_length {α : Type} (l : List α) (m : Nat) :
    l.take (min m l.length) = l.take m := by
  rcases Nat.le_total m l.length with h | h
  · rw [min_eq_left h]
  · rw [min_eq_right h, List.take_length, List.take_of_length_le h]

/-- Python slicing with non-negative start and width is drop-then-take. -/
lemma pySlice_nonneg {α : Type} (l : List α) (a c : Int) (ha : 0 ≤ a) (hc : 0 ≤ c) :
    pySlice l a (a + c) = (l.drop a.toNat).take c.toNat := by
  simp only [pySlice]
  rw [if_neg (by omega), if_neg (by omega)]
  have h1 : (min (a + c) (l.length : Int)).toNat = min (a.toNat + c.toNat) l.length := by
    omega
  have h2 : (min a (l.length : Int)).toNat = min a.toNat l.length := by
    omega
  rw [h1, h2, take_min_length]
  rcases Nat.le_total a.toNat l.length with h | h
  · rw [min_eq_left h, List.drop_take]
    congr 1
    omega
  · rw [min_eq_right h]
    rw [List.drop_eq_nil_of_le (by rw [List.length_take]; omega)]
    rw [List.drop_eq_nil_of_le h]
    simp

/-- Closed form of the chunking loop: the `j`-th produced window is the
slice of `cs.toNat` words starting at word `start + j * (cs - ov).toNat`.
This captures the advancing-window structure of the loop. -/
lemma chunkLoop_windows (words : List String) (cs ov : Int)
    (hov : 0 ≤ ov) (hlt : ov < cs) :
    ∀ (fuel : Nat) (start : Nat) (ws : List (List String)),
      chunkLoop words cs ov (start : Int) fuel = some ws →
      ∀ j (hj : j < ws.length),
        ws.get ⟨j, hj⟩ =
          (words.drop (start + j * (cs - ov).toNat)).take cs.toNat := by
  intro fuel
  induction fuel with
  | zero =>
    intro start ws hws j hj
    by_cases h1 : (start : Int) < (words.length : Int)
    · rw [chunkLoop_fuel_zero _ _ _ _ h1] at hws
      exact absurd hws (by simp)
    · rw [chunkLoop_exit _ _ _ _ _ h1] at hws
      cases hws
      exact absurd hj (by simp)
  | succ n ih =>
    intro start ws hws j hj
    by_cases h1 : (start : Int) < (words.length : Int)
    · rw [chunkLoop_iter _ _ _ _ _ h1] at hws
      by_cases h2 : (start : Int) + cs ≥ (words.length : Int)
      · rw [if_pos h2] at hws
        cases hws
        have hj0 : j = 0 := by simpa using Nat.lt_one_iff.mp (by simpa using hj)
        subst hj0
        show pySlice words (start : Int) ((start : Int) + cs) = _
        rw [pySlice_nonneg words (start : Int) cs (Int.natCast_nonneg start) (by omega)]
        simp
      · rw [if_neg h2] at hws
        cases hx : chunkLoop words cs ov ((start : Int) + (cs - ov)) n with
        | none =>
          rw [hx] at hws
          exact absurd hws (by simp)
        | some ws' =>
          rw [hx] at hws
          cases hws
          have hcast : ((start : Int) + (cs - ov)) =
              ((start + (cs - ov).toNat : Nat) : Int) := by
            push_cast
            omega
          rw [hcast] at hx
          cases j with
          | zero =>
            show pySlice words (start : Int) ((start : Int) + cs) = _
            rw [pySlice_nonneg words (start : Int) cs (Int.natCast_nonneg start) (by omega)]
            simp
          | succ j' =>
            have hj' : j' < ws'.length := by simpa using hj
            have hrec := ih (start + (cs - ov).toNat) ws' hx j' hj'
            show ws'.get ⟨j', hj'⟩ = _
            rw [hrec]
            congr 2
            have hs : (j' + 1) * (cs - ov).toNat =
                j' * (cs - ov).toNat + (cs - ov).toNat := by ring
            omega
    · rw [chunkLoop_exit _ _ _ _ _ h1] at hws
      cases hws
      exact absurd hj (by simp)

/-- C4: For every text and every valid (chunkSize, overlap) with
0 ≤ overlap < chunkSize, every window of words produced by the chunking
loop (the source joins exactly these windows with single spaces to form
the chunks, so a chunk's whitespace-delimited tokens are its window) has
at most chunkSize tokens, and for any two consecutive full-length chunks
the last `overlap` tokens of the first equal the first `overlap` tokens
of the second. -/
theorem chunker_chunks_spec (text : String) (cs ov : Int)
    (h0 : 0 ≤ ov) (h1 : ov < cs) (ws : List (List String))
    (hws : chunkLoop (pySplit text) cs ov 0 ((pySplit text).length + 1) = some ws) :
    (∀ w ∈ ws, w.length ≤ cs.toNat)
    ∧ ∀ i (hi : i + 1 < ws.length),
        (ws.get ⟨i, Nat.lt_of_succ_lt hi⟩).length = cs.toNat →
        (ws.get ⟨i + 1, hi⟩).length = cs.toNat →
        (ws.get ⟨i, Nat.lt_of_succ_lt hi⟩).drop
            ((ws.get ⟨i, Nat.lt_of_succ_lt hi⟩).length - ov.toNat)
          = (ws.get ⟨i + 1, hi⟩).take ov.toNat := by
  have hws' : chunkLoop (pySplit text) cs ov ((0 : Nat) : Int)
      ((pySplit text).length + 1) = some ws := by
    simpa using hws
  have hwin := chunkLoop_windows (pySplit text) cs ov h0 h1
    ((pySplit text).length + 1) 0 ws hws'
  have hovcs : ov.toNat ≤ cs.toNat := by omega
  constructor
  · intro w hw
    obtain ⟨⟨j, hj⟩, rfl⟩ := List.mem_iff_get.mp hw
    rw [hwin j hj]
    rw [List.length_take]
    omega
  · intro i hi hfull _hfull2
    rw [hfull, hwin i (Nat.lt_of_succ_lt hi), hwin (i + 1) hi]
    rw [List.drop_take, List.take_take, List.drop_drop]
    have hmul : (i + 1) * (cs - ov).toNat =
        i * (cs - ov).toNat + (cs - ov).toNat := by ring
    have hstep : (cs - ov).toNat = cs.toNat - ov.toNat := by omega
    congr 1
    · omega
    · congr 1
      omega

/-- Witness for C4 at text "a b c d", chunkSize 2, overlap 1: the windows
are [a,b], [b,c], [c,d]; each has at most 2 tokens, and the last token of
the first full window equals the first token of the second. -/
theorem chunker_chunks_spec_witness :
    (∀ w ∈ [["a", "b"], ["b", "c"], ["c", "d"]], w.length ≤ (2 : Int).toNat)
    ∧ ["a", "b"].drop (["a", "b"].length - (1 : Int).toNat) =
        ["b", "c"].take (1 : Int).toNat := by
  have h := chunker_chunks_spec "a b c d" 2 1 (by decide) (by decide)
    [["a", "b"], ["b", "c"], ["c", "d"]] (by decide)
  refine ⟨h.1, ?_⟩
  have h2 := h.2 0 (by decide) (by decide) (by decide)
  simpa using h2

/-! ## Embedding service theorems -/

/-- C5 is false as stated: `generate_embeddings` filters out empty and
whitespace-only texts before encoding, so with input `[" ", "ab"]` the
batch output is the single vector for "ab" — it has length 1 while the
input has length 2, so the output is not index-aligned with the input;
moreover the per-item call on the whitespace-only text at index 0 raises
instead of producing the batch output's entry at index 0. -/
theorem generate_embeddings_misaligned :
    generate_embeddings exEncode [" ", "ab"] = Except.ok [exEncode "ab"]
    ∧ generate_embedding exEncode " " =
        Except.error "Cannot generate embedding for empty text"
    ∧ [exEncode "ab"].length ≠ [" ", "ab"].length :=
  ⟨rfl, rfl, by decide⟩

/-- C5 amended: for every list of texts that are all non-empty after
stripping whitespace, the batch call succeeds with exactly the per-item
encodings in input order, so `embedBatch(texts)[i] = embed(texts[i])` for
every valid index; when some texts are empty or whitespace-only they are
dropped from the batch output, which then aligns with the filtered list,
not the input. -/
theorem generate_embeddings_aligned (encode : String → List Rat) :
    ∀ (texts : List String), (∀ t ∈ texts, isValidText t = true) →
      generate_embeddings encode texts = Except.ok (texts.map encode)
      ∧ ∀ i (hi : i < texts.length),
          generate_embedding encode (texts.get ⟨i, hi⟩) =
            Except.ok ((texts.map encode).get ⟨i, by simpa using hi⟩) := by
  intro texts h
  have hvalid : ∀ i (hi : i < texts.length), isValidText (texts.get ⟨i, hi⟩) = true :=
    fun i hi => h _ (List.get_mem texts i hi)
  constructor
  · cases texts with
    | nil => rfl
    | cons a as =>
      have hfilter : (a :: as).filter (fun t => isValidText t) = a :: as :=
        List.filter_eq_self.mpr h
      simp only [generate_embeddings]
      rw [if_neg (by simp), hfilter, if_neg (by simp)]
  · intro i hi
    simp only [generate_embedding]
    rw [if_pos (hvalid i hi)]
    rw [List.get_map]

/-- Witness for the amended C5 at texts ["ab", "c"] with the sample
encoder. -/
theorem generate_embeddings_aligned_witness :
    generate_embeddings exEncode ["ab", "c"] = Except.ok (["ab", "c"].map exEncode)
    ∧ generate_embedding exEncode "ab" =
        Except.ok ((["ab", "c"].map exEncode).get ⟨0, by decide⟩) := by
  have h := generate_embeddings_aligned exEncode ["ab", "c"] (by decide)
  exact ⟨h.1, h.2 0 (by decide)⟩

/-- C10: `compute_similarity` is total: when either vector has zero norm
(equivalently, zero sum of squares, since the norm is its square root) it
returns exactly 0 rather than dividing by zero, and otherwise it returns
the cosine similarity dot(v1,v2) / (‖v1‖·‖v2‖). -/
theorem compute_similarity_total (v1 v2 : List Real) :
    (((v1.map (fun x => x * x)).sum = 0 ∨ (v2.map (fun x => x * x)).sum = 0) →
      compute_similarity v1 v2 = 0)
    ∧ (normList v1 ≠ 0 → normList v2 ≠ 0 →
      compute_similarity v1 v2 = dotList v1 v2 / (normList v1 * normList v2)) := by
  constructor
  · intro h
    have hz : normList v1 = 0 ∨ normList v2 = 0 := by
      cases h with
      | inl h => exact Or.inl (by rw [normList, h, Real.sqrt_zero])
      | inr h => exact Or.inr (by rw [normList, h, Real.sqrt_zero])
    simp only [compute_similarity]
    rw [if_pos hz]
  · intro h1 h2
    simp only [compute_similarity]
    rw [if_neg (by tauto)]

/-- Witness for C10: a zero vector yields similarity 0; two unit vectors
yield the cosine formula. -/
theorem compute_similarity_total_witness :
    compute_similarity [(0 : Real)] [(1 : Real)] = 0
    ∧ compute_similarity [(1 : Real)] [(1 : Real)] =
        dotList [(1 : Real)] [(1 : Real)] /
          (normList [(1 : Real)] * normList [(1 : Real)]) := by
  constructor
  · exact (compute_similarity_total [(0 : Real)] [(1 : Real)]).1
      (Or.inl (by norm_num))
  · exact (compute_similarity_total [(1 : Real)] [(1 : Real)]).2
      (by norm_num [normList, Real.sqrt_one]) (by norm_num [normList, Real.sqrt_one])

/-! ## Prompt and pipeline theorems -/

/-- C6: the savings rate rendered in the profile summary is the
percentage `(income − expenses) / income × 100` whenever total income is
positive, is exactly 0 when total income is 0 (no division-by-zero
fault), and for income 9000 and expenses 8200 equals 80/9 ≈ 8.89%. -/
theorem savings_rate_correct (income expenses : Rat) :
    (0 < income → savings_rate_pct income expenses = (income - expenses) / income * 100)
    ∧ (income = 0 → savings_rate_pct income expenses = 0)
    ∧ savings_rate_pct 9000 8200 = 80 / 9
    ∧ |savings_rate_pct 9000 8200 - 889 / 100| < 1 / 100 := by
  refine ⟨?_, ?_, ?_, ?_⟩
  · intro h
    simp only [savings_rate_pct]
    rw [if_pos h]
  · intro h
    subst h
    simp only [savings_rate_pct]
    norm_num
  · norm_num [savings_rate_pct]
  · rw [abs_lt]
    constructor <;> norm_num [savings_rate_pct]

/-- Witness for C6 at the spec inputs (9000, 8200) and (0, 500). -/
theorem savings_rate_correct_witness :
    savings_rate_pct 9000 8200 = 80 / 9 ∧ savings_rate_pct 0 500 = 0 :=
  ⟨(savings_rate_correct 9000 8200).2.2.1, (savings_rate_correct 0 500).2.1 rfl⟩

/-- C8: prompt assembly is a pure, deterministic function of its inputs
(question, profile, retrieved passages with metadata, regional context):
two calls with identical inputs produce identical prompt text. The
embedding of `_construct_prompt` reads nothing but its arguments — no
randomness and no clock. -/
theorem construct_prompt_deterministic (q1 q2 : String) (p1 p2 : UserProfile)
    (b1 b2 : List String) (m1 m2 : List Metadata) (c1 c2 : String)
    (hq : q1 = q2) (hp : p1 = p2) (hb : b1 = b2) (hm : m1 = m2) (hc : c1 = c2) :
    constructPrompt q1 p1 b1 m1 c1 = constructPrompt q2 p2 b2 m2 c2 := by
  subst hq hp hb hm hc
  rfl

/-- Witness for C8 at a concrete input. -/
theorem construct_prompt_deterministic_witness :
    constructPrompt "Q" (placeholderProfile "u") ["c"] [{ title := some "T" }] "CTX"
      = constructPrompt "Q" (placeholderProfile "u") ["c"] [{ title := some "T" }] "CTX" :=
  construct_prompt_deterministic "Q" "Q" (placeholderProfile "u") (placeholderProfile "u")
    ["c"] ["c"] [{ title := some "T" }] [{ title := some "T" }] "CTX" "CTX"
    rfl rfl rfl rfl rfl

/-- If a string splits around the marker, so does any left extension. -/
lemma split_cons (a s m : String) (h : ∃ pre post, s = pre ++ (m ++ post)) :
    ∃ pre post, a ++ s = pre ++ (m ++ post) := by
  obtain ⟨pre, post, rfl⟩ := h
  exact ⟨a ++ pre, post, by simp [String.append_assoc]⟩

/-- A string starting with the marker splits around it. -/
lemma split_head (m b : String) : ∃ pre post, m ++ b = pre ++ (m ++ post) :=
  ⟨"", b, by simp⟩

/-- C7: a retrieval failure (ChromaDB error) or an empty index (empty
result lists) is non-fatal: `query` proceeds with an empty passage set
and still returns the generated answer, and the assembled prompt contains
the explicit no-excerpts marker in place of the retrieved-passage
block. -/
theorem retrieval_failure_nonfatal (emb : List Rat) (e : String) (p : UserProfile)
    (ctx uid q ans : String) (llm : String → String → Except String String)
    (hllm : llm (constructPrompt q p [] [] ctx) get_system_message = Except.ok ans) :
    ragQuery (Except.ok emb) (Except.error e) (Except.ok p) ctx llm uid q = Except.ok ans
    ∧ ragQuery (Except.ok emb) (Except.ok ([], [])) (Except.ok p) ctx llm uid q
        = Except.ok ans
    ∧ ∃ pre post, constructPrompt q p [] [] ctx = pre ++ noExcerptsMarker ++ post := by
  refine ⟨?_, ?_, ?_⟩
  · simp only [ragQuery]
    rw [hllm]
  · simp only [ragQuery]
    rw [hllm]
  · have hbk : bookKnowledge [] [] =
        "FINANCIAL WISDOM FROM BOOKS:\n" ++ noExcerptsMarker ++ "\n\n" := rfl
    simp only [constructPrompt, hbk, String.append_assoc]
    repeat
      first
      | exact split_head noExcerptsMarker _
      | apply split_cons

/-- Witness for C7 with an LLM that echoes a fixed answer. -/
theorem retrieval_failure_nonfatal_witness :
    ragQuery (Except.ok [1]) (Except.error "ChromaDB down")
        (Except.ok (placeholderProfile "u1")) "CTX"
        (fun _ _ => Except.ok "ANSWER") "u1" "Q" = Except.ok "ANSWER"
    ∧ ∃ pre post, constructPrompt "Q" (placeholderProfile "u1") [] [] "CTX"
        = pre ++ noExcerptsMarker ++ post := by
  have h := retrieval_failure_nonfatal [1] "ChromaDB down" (placeholderProfile "u1")
    "CTX" "u1" "Q" "ANSWER" (fun _ _ => Except.ok "ANSWER") rfl
  exact ⟨h.1, h.2.2⟩

/-- C1 is false on the code: `RAGService.query` can never surface
`ProfileNotFoundException` to its caller — its `except Exception` around
the profile fetch substitutes the placeholder profile for EVERY failure,
`ProfileNotFoundException` included. First conjunct: no run of the
pipeline, whatever the collaborator outcomes, produces the
profile-not-found error. Second conjunct: on the concrete failing input
where the profile fetch reports not-found, the pipeline returns a
degraded answer generated from the placeholder-profile prompt. -/
theorem profile_not_found_swallowed :
    (∀ (embedRes : Except String (List Rat))
        (retrieveRes : Except String (List String × List Metadata))
        (profileRes : Except ProfileError UserProfile)
        (ctx : String) (llm : String → String → Except String String)
        (uid q r : String),
      ragQuery embedRes retrieveRes profileRes ctx llm uid q ≠
        Except.error (RagError.profileNotFound r))
    ∧ ragQuery (Except.ok [1]) (Except.ok ([], []))
        (Except.error (ProfileError.notFound "u1")) "CTX"
        (fun p _ => Except.ok p) "u1" "Q"
      = Except.ok (constructPrompt "Q" (placeholderProfile "u1") [] [] "CTX") := by
  constructor
  · intro embedRes retrieveRes profileRes ctx llm uid q r
    cases embedRes with
    | error e => simp [ragQuery]
    | ok emb =>
      simp only [ragQuery]
      split
      · simp
      · simp
  · rfl

/-- C2 is false on the code: both `save_message` calls of the `chat`
endpoint sit inside the outer `try` whose `except Exception` handler
turns any failure into HTTP 500, so a history-append failure fails the
whole query instead of being logged and absorbed — whether it is the
user-message append (first conjunct) or the assistant-message append
after a successful answer (second conjunct). -/
theorem history_write_failure_fails_query :
    chatEndpoint (Except.error "MongoDB down") (Except.ok "the answer")
        (Except.ok "oid") "c1"
      = ChatOutcome.httpError 500 "An unexpected error occurred. Please try again."
    ∧ chatEndpoint (Except.ok "oid1") (Except.ok "the answer")
        (Except.error "MongoDB down") "c1"
      = ChatOutcome.httpError 500 "An unexpected error occurred. Please try again." :=
  ⟨rfl, rfl⟩

end FlousWise
